import Mathlib

/-!
Verification development for the SIPORTS AI matching service
(`backend/ai_matching_service.py`).

The service is embedded shallowly: SQLite rows become Lean structures,
Python dict/list operations become list operations, JSON-encoded tag
columns become an explicit `TagData` type whose decoding can fail (as
`json.loads` raises on malformed input), the injected random source of
the spec becomes explicit numeric parameters, floating point arithmetic
over catalog constants becomes exact rational arithmetic (the float
results coincide at every constant used here), and `math.log` becomes
`Real.log`.
-/

/-! ## String helpers (Python `in`, `str.split`, `str.lower`) -/

/-- Bool test that the char list `h` starts with `n`. -/
def charsStartWith : List Char → List Char → Bool
  | _, [] => true
  | [], _ :: _ => false
  | a :: as, n :: ns => a == n && charsStartWith as ns

/-- Bool test that the char list `n` occurs contiguously inside `h`. -/
def charsContain : List Char → List Char → Bool
  | [], needle => needle.isEmpty
  | a :: as, needle => charsStartWith (a :: as) needle || charsContain as needle

/-- Python `s.lower()`, as the char list of the result. `Char.toLower`
lowers the ASCII range; every cased vocabulary constant of the service
is already lowercase, so the match behaviour is preserved. -/
def lowerOf (s : String) : List Char :=
  s.toList.map Char.toLower

/-- Python `needle in hay` with a lowered haystack: contiguous substring
test. -/
def strContains (hay : List Char) (needle : String) : Bool :=
  charsContain hay needle.toList

/-- Whitespace tokenizer: `cur` accumulates the current (reversed)
token. -/
def splitWsAux : List Char → List Char → List (List Char)
  | [], cur => if cur.isEmpty then [] else [cur.reverse]
  | c :: cs, cur =>
    if c.isWhitespace then
      if cur.isEmpty then splitWsAux cs [] else cur.reverse :: splitWsAux cs []
    else splitWsAux cs (c :: cur)

/-- Python `s.split()` on a char list: split on whitespace runs,
discarding empty pieces. -/
def splitWs (cs : List Char) : List (List Char) :=
  splitWsAux cs []

/-- Decidable equality of Except results. -/
instance {ε α : Type} [DecidableEq ε] [DecidableEq α] : DecidableEq (Except ε α) := fun x y =>
  match x, y with
  | .ok a, .ok b =>
    if h : a = b then .isTrue (by rw [h]) else .isFalse (fun hh => h (Except.ok.inj hh))
  | .error e, .error f =>
    if h : e = f then .isTrue (by rw [h]) else .isFalse (fun hh => h (Except.error.inj hh))
  | .ok _, .error _ => .isFalse (fun hh => Except.noConfusion hh)
  | .error _, .ok _ => .isFalse (fun hh => Except.noConfusion hh)

/-! ## Stored tag columns

Each tag column of `user_profiles_detailed` holds a JSON-encoded array.
The service reads it by `json.loads(row.get(col, '[]')) if row.get(col)
else []`: a SQL NULL or empty string (Python-falsy) degrades to `[]`
without parsing; a non-empty string is parsed and `json.loads` raises on
malformed content. -/

/-- A stored tag column: absent/empty, malformed non-empty, or a parsed
string array. -/
inductive TagData where
  | absent
  | malformed
  | tags (l : List String)
deriving DecidableEq

/-- `json.loads(row.get(col, '[]')) if row.get(col) else []`. An exception
from `json.loads` is the `Except.error` case. -/
def TagData.decode : TagData → Except Unit (List String)
  | .absent => .ok []
  | .malformed => .error ()
  | .tags l => .ok l

/-! ## Profiles (joined `users` row and `user_profiles_detailed` row) -/

/-- A requester or candidate row as `find_matches` reads it:
`SELECT u.*, upd.* FROM users u LEFT JOIN user_profiles_detailed upd`.
`created_at` is an epoch second count. `meeting_availability` keeps the
SQL NULL of a missing detailed-profile row distinct from the empty
string, because the source calls `.lower()` on it unguarded;
`company_size` is guarded by truthiness before any method call, so the
empty string covers its NULL exactly. -/
structure Profile where
  id : Nat
  user_type : String
  status : String
  description : String
  created_at : Int
  sectors_activity : TagData
  products_services : TagData
  participation_objectives : TagData
  interest_themes : TagData
  looking_for : TagData
  geographic_location : TagData
  company_size : String
  meeting_availability : Option String
deriving DecidableEq

/-! ## Compatibility scorer (`_simulate_compatibility_model`) -/

/-- `len(set(a) & set(b))`: number of distinct strings common to both lists. -/
def setInterCard (a b : List String) : Nat :=
  ((a.dedup).filter (fun x => decide (x ∈ b))).length

/-- Factor 1: `min(25, len(common_sectors) * 8)` when both sides non-empty. -/
def sectorFactor (s1 s2 : List String) : Nat :=
  if s1 ≠ [] ∧ s2 ≠ [] then min 25 (setInterCard s1 s2 * 8) else 0

/-- `any(word in service.lower() for word in objective.lower().split())`:
some whitespace token of the objective occurs as a substring of the
service text, case-insensitively. -/
def tokenHit (objective service : String) : Bool :=
  (splitWs (lowerOf objective)).any (fun w => charsContain (lowerOf service) w)

/-- The nested loop of factor 2: one increment per (objective, service)
pair whose token test hits. -/
def complementarityCount (objectives services : List String) : Nat :=
  objectives.foldl
    (fun acc o =>
      services.foldl (fun acc2 s => if tokenHit o s then acc2 + 1 else acc2) acc)
    0

/-- Factor 3: `min(20, len(common_themes) * 5)` when both sides non-empty. -/
def themeFactor (t1 t2 : List String) : Nat :=
  if t1 ≠ [] ∧ t2 ≠ [] then min 20 (setInterCard t1 t2 * 5) else 0

/-- `any(g1 in geo2 or g2 in geo1 for g1 in geo1 for g2 in geo2)`.
`geo2` is a Python list, so `g1 in geo2` is list membership. -/
def geoCross (geo1 geo2 : List String) : Bool :=
  geo1.any (fun g1 => geo2.any (fun g2 => decide (g1 ∈ geo2) || decide (g2 ∈ geo1)))

/-- Factor 4: 15 on exact set intersection, else 8 on the cross check,
else 0; all 0 when either side is empty. -/
def geoFactor (geo1 geo2 : List String) : Nat :=
  if geo1 ≠ [] ∧ geo2 ≠ [] then
    if setInterCard geo1 geo2 ≠ 0 then 15
    else if geoCross geo1 geo2 then 8
    else 0
  else 0

/-- The `size_compatibility` dict, in insertion order. -/
def sizePairs : List (String × String × Nat) :=
  [("startup", "enterprise", 8), ("sme", "enterprise", 10),
   ("sme", "sme", 10), ("startup", "startup", 7)]

/-- Factor 5: first pair of the dict whose categories occur (either way,
case-insensitively, as substrings) in the two company sizes; `break`
after the first hit. -/
def sizeFactor (size1 size2 : String) : Nat :=
  if size1 ≠ "" ∧ size2 ≠ "" then
    match sizePairs.find? (fun p =>
        (strContains (lowerOf size1) p.1 && strContains (lowerOf size2) p.2.1) ||
        (strContains (lowerOf size1) p.2.1 && strContains (lowerOf size2) p.1)) with
    | some p => p.2.2
    | none => 0
  else 0

/-- `avail.lower()` on a stored availability column (line 311): raises
`AttributeError` when the column is SQL NULL, lowers the text
otherwise. -/
def lowerAvail : Option String → Except Unit (List Char)
  | none => .error ()
  | some s => .ok (lowerOf s)

/-- Factor 6, following the source's evaluation order: `avail1.lower()`
is evaluated first (raising on NULL), and `avail2.lower()` only when the
first text lacks the immediate marker; 10 on an immediate marker, else 5
when both texts are truthy (non-empty), else 0. -/
def availFactor (a1 a2 : Option String) : Except Unit Nat := do
  let l1 ← lowerAvail a1
  if strContains l1 "immédiat" then pure 10
  else do
    let l2 ← lowerAvail a2
    if strContains l2 "immédiat" then pure 10
    else if a1 ≠ some "" ∧ a2 ≠ some "" then pure 5
    else pure 0

/-- The candidate `products_services` column is decoded inside the loop
over the requester objectives, hence only when that list is non-empty. -/
def servicesIfNeeded (obj1 : List String) (p2 : Profile) : Except Unit (List String) :=
  if obj1.isEmpty then pure [] else p2.products_services.decode

/-- `_simulate_compatibility_model(profile1, profile2)`. Tag columns are
decoded in source order (the source also decodes `looking_for` of the
requester and `participation_objectives` of the candidate without using
them). The sum of the factors is clamped to 100. -/
def simulate_compatibility_model (p1 p2 : Profile) : Except Unit Nat := do
  let sectors1 ← p1.sectors_activity.decode
  let sectors2 ← p2.sectors_activity.decode
  let f1 := sectorFactor sectors1 sectors2
  let obj1 ← p1.participation_objectives.decode
  let _looking1 ← p1.looking_for.decode
  let _obj2 ← p2.participation_objectives.decode
  let services2 ← servicesIfNeeded obj1 p2
  let f2 := min 20 (complementarityCount obj1 services2 * 4)
  let themes1 ← p1.interest_themes.decode
  let themes2 ← p2.interest_themes.decode
  let f3 := themeFactor themes1 themes2
  let geo1 ← p1.geographic_location.decode
  let geo2 ← p2.geographic_location.decode
  let f4 := geoFactor geo1 geo2
  let f5 := sizeFactor p1.company_size p2.company_size
  let f6 ← availFactor p1.meeting_availability p2.meeting_availability
  return min 100 (f1 + f2 + f3 + f4 + f5 + f6)

/-! ## Topic extractor (`_simulate_nlp_analysis`)

`random.uniform(0.75, 0.95)` computes `0.75 + (0.95 - 0.75) * random()`
with `random() ∈ [0, 1]`; the drawn unit value is the explicit parameter
`r`. The empty-text early return carries no `confidence` key at all,
hence `confidence : Option ℚ`. -/

/-- The `maritime_keywords` vocabulary, in insertion order. -/
def maritime_keywords : List (String × List String) :=
  [("port_management", ["gestion portuaire", "terminaux", "logistique", "manutention", "stockage"]),
   ("port_equipment", ["grues", "portiques", "équipements", "automatisation", "robotique"]),
   ("maritime_tech", ["navigation", "sécurité maritime", "communication", "radar", "GPS"]),
   ("green_energy", ["éolien offshore", "hydrogène", "batteries", "énergies renouvelables"]),
   ("digitalization", ["IoT", "IA", "big data", "digitalisation", "capteurs", "blockchain"]),
   ("regulations", ["OMI", "SOLAS", "MARPOL", "conformité", "certification", "audit"]),
   ("logistics", ["supply chain", "transport multimodal", "conteneurs", "fret", "douane"])]

/-- The positive sentiment lexicon. -/
def positive_words : List String :=
  ["innovation", "leader", "expert", "qualité", "excellence", "performance"]

/-- The negative sentiment lexicon. -/
def negative_words : List String :=
  ["problème", "difficulté", "défi", "limitation"]

/-- The dict returned by `_simulate_nlp_analysis`. -/
structure NlpResult where
  keywords : List String
  topics : List String
  sentiment : String
  confidence : Option ℚ
deriving DecidableEq

/-- `_simulate_nlp_analysis(text)` with the unit random draw `r`. -/
def simulate_nlp_analysis (r : ℚ) (text : String) : NlpResult :=
  if text = "" then ⟨[], [], "neutral", none⟩
  else
    let tl := lowerOf text
    let det := maritime_keywords.foldl
      (fun acc cat =>
        cat.2.foldl
          (fun acc2 kw =>
            if strContains tl kw then
              (acc2.1 ++ [kw], if cat.1 ∈ acc2.2 then acc2.2 else acc2.2 ++ [cat.1])
            else acc2)
          acc)
      ([], [])
    let pc := positive_words.countP (fun w => strContains tl w)
    let nc := negative_words.countP (fun w => strContains tl w)
    let sentiment :=
      if nc < pc then "positive" else if pc < nc then "negative" else "neutral"
    ⟨det.1, det.2, sentiment, some (3/4 + (19/20 - 3/4) * r)⟩

/-! ## Collaborative filtering (`_simulate_collaborative_filtering`)

The cohort query, translated clause by clause over the append-only
`interaction_history` list. -/

/-- One `interaction_history` row. -/
structure Interaction where
  user_id : Nat
  target_user_id : Nat
  compatibility_score : Nat
  success_indicator : Nat
deriving DecidableEq

/-- `SELECT target_user_id FROM interaction_history WHERE user_id = ?
AND success_indicator >= 1`. -/
def successTargets (u : Nat) (h : List Interaction) : List Nat :=
  (h.filter (fun row => decide (row.user_id = u) && decide (1 ≤ row.success_indicator))).map
    (fun row => row.target_user_id)

/-- `SELECT DISTINCT ih2.user_id FROM interaction_history ih2 WHERE
ih2.target_user_id IN (successTargets)`: every actor with at least one
interaction aimed at one of the requester's successful targets. -/
def cohortMembers (u : Nat) (h : List Interaction) : List Nat :=
  ((h.filter (fun row => decide (row.target_user_id ∈ successTargets u h))).map
    (fun row => row.user_id)).dedup

/-- The outer `WHERE user_id IN (cohort) AND user_id != ?`: the whole
history of the cohort, the requester excluded. -/
def cohortRows (u : Nat) (h : List Interaction) : List Interaction :=
  h.filter (fun row => decide (row.user_id ∈ cohortMembers u h) && decide (row.user_id ≠ u))

/-- The `GROUP BY target_user_id` group of the cohort rows for target `t`. -/
def rowsForTarget (u : Nat) (h : List Interaction) (t : Nat) : List Interaction :=
  (cohortRows u h).filter (fun row => decide (row.target_user_id = t))

/-- SQL `AVG` of a projection over a group of rows. -/
def avgOf (f : Interaction → Nat) (rows : List Interaction) : ℚ :=
  (rows.map (fun row => (f row : ℚ))).sum / rows.length

/-- Python `x or d` on numbers: a zero (or NULL) value falls back to the
default. -/
def pyOr (x d : ℚ) : ℚ := if x = 0 then d else x

/-- `(avg_compatibility / 100) * (1 + success_rate) * math.log(1 +
interaction_count)` with the source's `or`-defaults (`avg or 70`,
`rate or 0.5`). -/
noncomputable def rowBoost (avgScore : ℚ) (count : Nat) (avgSuccess : ℚ) : ℝ :=
  ((pyOr avgScore 70 : ℚ) : ℝ) / 100 * (1 + ((pyOr avgSuccess (1/2) : ℚ) : ℝ)) *
    Real.log (1 + count)

/-- `collaborative_scores[target_id]` of
`_simulate_collaborative_filtering(user_id, ...)`: the grouped query row
for the target (present exactly when the cohort has `>= 2` rows with
that target, the `HAVING` clause) raises the base 0.5 to
`max(0.5, rowBoost)`; otherwise the 0.5 default stands. -/
noncomputable def collaborativeScore (u : Nat) (h : List Interaction) (t : Nat) : ℝ :=
  if 2 ≤ (rowsForTarget u h t).length then
    max (1/2)
      (rowBoost (avgOf (fun row => row.compatibility_score) (rowsForTarget u h t))
        (rowsForTarget u h t).length
        (avgOf (fun row => row.success_indicator) (rowsForTarget u h t)))
  else 1/2

/-! ## Trend detector and proactive recommendations -/

/-- One simulated trend record. -/
structure Trend where
  topic : String
  strength : ℚ
  sectors : List String
  description : String
  growth_rate : String
deriving DecidableEq

/-- The fixed catalog returned by `_simulate_trend_detection`. -/
def current_trends : List Trend :=
  [⟨"Intelligence Artificielle Portuaire", 85/100, ["digitalization", "port_management"],
    "Adoption croissante de l\x27IA pour l\x27optimisation des opérations portuaires", "+45%"⟩,
   ⟨"Énergies Renouvelables Offshore", 78/100, ["green_energy", "maritime_tech"],
    "Expansion des projets éoliens offshore et solutions d\x27hydrogène vert", "+32%"⟩,
   ⟨"Automatisation Terminaux", 72/100, ["port_equipment", "digitalization"],
    "Investissement massif dans l\x27automatisation des terminaux à conteneurs", "+28%"⟩,
   ⟨"Durabilité et Décarbonation", 68/100, ["green_energy", "regulations"],
    "Nouvelles réglementations environnementales et solutions vertes", "+25%"⟩]

/-- Python `int(q)` on the non-negative values used here: the floor.
At every catalog constant (`0.85 * 100` and the rest) the IEEE double
product rounds to the exact integer, so rational arithmetic agrees with
the float source. -/
def pyInt (q : ℚ) : ℤ := ⌊q⌋

/-- One emitted `ProactiveRecommendation`; `expires_at` is an epoch
second count. -/
structure ProactiveRecommendation where
  user_id : Nat
  recommendation_type : String
  title : String
  content : String
  confidence_score : ℤ
  action_suggestions : List String
  expires_at : Int
deriving DecidableEq

/-- The stored tables the service reads: the joined profile rows. -/
structure Database where
  users : List Profile

/-- `SELECT u.*, upd.* ... WHERE u.id = ? ... fetchone()`. -/
def findUser (db : Database) (uid : Nat) : Option Profile :=
  db.users.find? (fun p => decide (p.id = uid))

/-- Seven days in seconds. -/
def sevenDays : Int := 7 * 86400

/-- Three days in seconds. -/
def threeDays : Int := 3 * 86400

/-- `SELECT COUNT(*) FROM users u ... WHERE u.id != ? AND u.status =
'validated' AND u.created_at > datetime('now', '-7 days')`. -/
def recentValidatedCount (db : Database) (uid : Nat) (now : Int) : Nat :=
  (db.users.filter (fun p =>
    decide (p.id ≠ uid) && decide (p.status = "validated") &&
    decide (now - sevenDays < p.created_at))).length

/-- The fixed action suggestion list of a trend recommendation. -/
def trendActions : List String :=
  ["Rechercher des partenaires dans cette thématique",
   "Actualiser votre profil avec ces mots-clés",
   "Participer aux discussions sur ce sujet"]

/-- The fixed action suggestion list of a new-match recommendation. -/
def newMatchActions : List String :=
  ["Lancer une nouvelle recherche de matching",
   "Examiner les nouveaux profils",
   "Envoyer des demandes de connexion"]

/-- `generate_proactive_recommendations(user_id)` at time `now`. A
missing requester yields the empty list; a malformed `interest_themes`
column raises. One trending-topic recommendation is emitted per catalog
trend whose sectors meet the requester's interests; one new-match
recommendation follows when any other validated profile was created in
the last seven days. -/
def generate_proactive_recommendations (db : Database) (uid : Nat) (now : Int) :
    Except Unit (List ProactiveRecommendation) := do
  match findUser db uid with
  | none => return []
  | some p =>
    let user_interests ← p.interest_themes.decode
    let trendRecs :=
      (current_trends.filter (fun t =>
        user_interests.any (fun i => t.sectors.contains i))).map
        (fun t =>
          ⟨uid, "trending_topic", "🔥 Tendance détectée: " ++ t.topic,
           t.description ++ " (Croissance: " ++ t.growth_rate ++ ")",
           pyInt (t.strength * 100), trendActions, now + sevenDays⟩)
    let newRecs : List ProactiveRecommendation :=
      if 0 < recentValidatedCount db uid now then
        [⟨uid, "new_match",
          "✨ " ++ toString (recentValidatedCount db uid now) ++ " nouveaux profils compatibles détectés",
          "De nouveaux participants ont rejoint la plateforme avec des profils correspondant à vos intérêts.",
          85, newMatchActions, now + threeDays⟩]
      else []
    return trendRecs ++ newRecs

/-! ## Matching factor analyzer and text generators -/

/-- The `factors` dict of `_analyze_matching_factors`; the last three
fields are initialised to 0 and never updated by the source. -/
structure MatchingFactors where
  common_interests : List String
  complementary_needs : List String
  sector_alignment : ℚ
  geographic_proximity : ℚ
  business_size_match : ℚ
  innovation_alignment : ℚ
deriving DecidableEq

/-- `_analyze_matching_factors(profile1, profile2, analysis1, analysis2)`.
The topic intersection is a Python set; its listing is modelled in
first-operand order. Decoding follows source order: sectors of both
sides, then `looking_for` of the requester, then candidate services
(here decoded unconditionally before the loop, as in the source). -/
def analyze_matching_factors (p1 p2 : Profile) (a1 a2 : NlpResult) :
    Except Unit MatchingFactors := do
  let common_topics := (a1.topics.dedup).filter (fun t => decide (t ∈ a2.topics))
  let sectors1 ← p1.sectors_activity.decode
  let sectors2 ← p2.sectors_activity.decode
  let sector_alignment : ℚ :=
    if sectors1 ≠ [] ∧ sectors2 ≠ [] then
      min 1 ((setInterCard sectors1 sectors2 : ℚ) / (max sectors1.length sectors2.length : ℚ))
    else 0
  let looking1 ← p1.looking_for.decode
  let products2 ← p2.products_services.decode
  let complementary := looking1.foldl
    (fun acc need =>
      products2.foldl
        (fun acc2 product =>
          if tokenHit need product then acc2 ++ [need ++ " ← " ++ product] else acc2)
        acc)
    []
  return ⟨common_topics, complementary, sector_alignment, 0, 0, 0⟩

/-- `_generate_ai_explanation(factors, score)`. -/
def generate_ai_explanation (f : MatchingFactors) (score : Nat) : String :=
  let explanations :=
    (if f.common_interests ≠ [] then
      ["Intérêts communs en " ++ String.intercalate ", " (f.common_interests.take 2)]
     else []) ++
    (if f.complementary_needs ≠ [] then
      ["Besoins complémentaires identifiés (" ++ toString f.complementary_needs.length ++
       " correspondances)"]
     else []) ++
    (if (1/2 : ℚ) < f.sector_alignment then ["Fort alignement sectoriel"] else [])
  let tone :=
    if 90 ≤ score then "Correspondance exceptionnelle"
    else if 80 ≤ score then "Très bonne compatibilité"
    else if 70 ≤ score then "Bonne compatibilité"
    else "Compatibilité modérée"
  if explanations ≠ [] then tone ++ ": " ++ String.intercalate ", " explanations
  else tone ++ " basée sur l\x27analyse comportementale"

/-- `_assess_business_potential(score, factors)`. -/
def assess_business_potential (score : Nat) (f : MatchingFactors) : String :=
  if 90 ≤ score ∧ 2 ≤ f.complementary_needs.length then "Très élevé"
  else if 80 ≤ score ∧ ((7/10 : ℚ) < f.sector_alignment ∨ 2 ≤ f.common_interests.length) then
    "Élevé"
  else if 70 ≤ score then "Moyen"
  else "Faible"

/-- `_generate_ai_recommendation(score, factors)`. -/
def generate_ai_recommendation (score : Nat) (f : MatchingFactors) : String :=
  let recs :=
    (if 85 ≤ score then ["🎯 Contact prioritaire recommandé"] else []) ++
    (if f.complementary_needs ≠ [] then ["💼 Proposez une collaboration directe"] else []) ++
    (if 2 ≤ f.common_interests.length then ["🤝 Excellent potentiel de partenariat"] else [])
  String.intercalate " • "
    (if recs = [] then ["📈 Explorez les opportunités de collaboration"] else recs)

/-- The `generic_topics` list of `_suggest_conversation_topics`. -/
def generic_topics : List String :=
  ["Innovations technologiques maritimes",
   "Réglementations internationales récentes",
   "Tendances du marché portuaire",
   "Projets de développement durable"]

/-- The `while len(topics) < 3` padding loop, drawing `random.choice`
indices from the injected stream `pick` and skipping duplicates. The
source loop runs until three distinct topics stand; the fuel bound only
truncates streams that repeat a drawn topic indefinitely, on which the
source would not terminate at all. -/
def padTopics (pick : Nat → Nat) : Nat → Nat → List String → List String
  | 0, _, ts => ts
  | fuel + 1, step, ts =>
    if ts.length < 3 then
      let t := generic_topics.getD (pick step % generic_topics.length) ""
      padTopics pick fuel (step + 1) (if t ∈ ts then ts else ts ++ [t])
    else ts

/-- Fuel for `padTopics`: far more draws than the four generic topics
need on any stream that eventually varies. -/
def padFuel : Nat := 64

/-- `_suggest_conversation_topics(analysis1, analysis2, factors)` (the
two analyses are received and ignored by the source as well). -/
def suggest_conversation_topics (pick : Nat → Nat) (_a1 _a2 : NlpResult)
    (f : MatchingFactors) : List String :=
  let topics :=
    (if "digitalization" ∈ f.common_interests then ["Transformation digitale des ports"] else []) ++
    (if "green_energy" ∈ f.common_interests then ["Solutions énergies renouvelables offshore"] else []) ++
    (if "port_management" ∈ f.common_interests then ["Optimisation des opérations portuaires"] else []) ++
    (if f.complementary_needs ≠ [] then ["Opportunités de collaboration business"] else [])
  (padTopics pick padFuel 0 topics).take 4

/-! ## `find_matches` -/

/-- The fields of `MatchingRequest` (the request's sector, location,
package and budget filters are carried but never read by
`find_matches`). -/
structure MatchingRequest where
  user_id : Nat
  match_types : List String
  sectors : List String
  min_compatibility : Nat
  location_filter : List String
  package_filter : List String
  budget_filter : String
  limit : Nat
deriving DecidableEq

/-- One `MatchResult`; `compatibility_score` is an integer that the
collaborative adjustment later rewrites. -/
structure MatchResult where
  matched_user_id : Nat
  compatibility_score : ℤ
  explanation : String
  mutual_interests : List String
  business_potential : String
  matching_factors : MatchingFactors
  ai_recommendation : String
  suggested_conversation_topics : List String
deriving DecidableEq

/-- The candidate type filter: absent when `"all"` is among the
requested match types. -/
def typeMatches (req : MatchingRequest) (p : Profile) : Bool :=
  req.match_types.contains "all" || req.match_types.contains p.user_type

/-- The candidate query of `find_matches`: validated users other than
the requester passing the type filter, `ORDER BY u.id LIMIT limit * 2`. -/
def candidatesQuery (db : Database) (req : MatchingRequest) : List Profile :=
  ((List.insertionSort (fun a b : Profile => a.id ≤ b.id)
    (db.users.filter (fun p =>
      decide (p.id ≠ req.user_id) && decide (p.status = "validated") && typeMatches req p))).take
    (req.limit * 2))

/-- `user_profile.get('description', '')` at line 445 (and the
candidate's at line 446): both rows are `sqlite3.Row` objects, which
expose no `.get` method, so this attribute lookup raises
`AttributeError`; the default the call names is never produced. Only the
scorer and factor-analyzer calls convert the rows with `dict(...)`
first. -/
def rowGetDescription (_row : Profile) : Except Unit String :=
  .error ()

/-- The body of the loop over one accepted candidate: the two
description reads (which raise on the `sqlite3.Row` objects), then the
two NLP analyses (unit draws `rng (2 * idx)` and `rng (2 * idx + 1)`),
the factor bundle, and the explanation texts. -/
def buildMatch (rng : Nat → ℚ) (pick : Nat → Nat → Nat) (idx : Nat)
    (reqp cand : Profile) (score : Nat) : Except Unit MatchResult := do
  let udesc ← rowGetDescription reqp
  let cdesc ← rowGetDescription cand
  let ua := simulate_nlp_analysis (rng (2 * idx)) udesc
  let ca := simulate_nlp_analysis (rng (2 * idx + 1)) cdesc
  let f ← analyze_matching_factors reqp cand ua ca
  return ⟨cand.id, (score : ℤ), generate_ai_explanation f score, f.common_interests,
    assess_business_potential score f, f, generate_ai_recommendation score f,
    suggest_conversation_topics (pick idx) ua ca f⟩

/-- The scoring loop of `find_matches`: each candidate (`idx` counts the
loop iterations, feeding the random streams) is scored by the
compatibility model and kept with its explanation bundle when the score
meets the request threshold. Any raised exception aborts the whole
loop. -/
def scoreLoop (reqp : Profile) (req : MatchingRequest) (rng : Nat → ℚ)
    (pick : Nat → Nat → Nat) : Nat → List MatchResult → List Profile →
    Except Unit (List MatchResult)
  | _, acc, [] => .ok acc
  | idx, acc, c :: cs => do
    let score ← simulate_compatibility_model reqp c
    if req.min_compatibility ≤ score then
      let m ← buildMatch rng pick idx reqp c score
      scoreLoop reqp req rng pick (idx + 1) (acc ++ [m]) cs
    else
      scoreLoop reqp req rng pick (idx + 1) acc cs

/-- The scoring loop started on an empty accumulator. -/
def scoreCandidates (reqp : Profile) (req : MatchingRequest) (rng : Nat → ℚ)
    (pick : Nat → Nat → Nat) (cands : List Profile) : Except Unit (List MatchResult) :=
  scoreLoop reqp req rng pick 0 [] cands

/-- The collaborative adjustment and final ranking: each surviving score
becomes `min(100, int(score * (1 + boost * 0.1)))` (all quantities are
non-negative, so Python `int` truncation is the floor), then the list is
sorted by adjusted score descending and truncated to the request
limit. -/
noncomputable def adjustAndRank (u : Nat) (h : List Interaction) (req : MatchingRequest)
    (ms : List MatchResult) : List MatchResult :=
  let adjusted := ms.map (fun m =>
    { m with compatibility_score := (min 100
        ⌊(m.compatibility_score : ℝ) *
          (1 + collaborativeScore u h m.matched_user_id * (1/10))⌋) })
  (List.insertionSort
    (fun a b : MatchResult => b.compatibility_score ≤ a.compatibility_score) adjusted).take
    req.limit

/-- `find_matches(request)` over the profile store `db` and interaction
history `h`, with the injected random streams `rng` (unit draws) and
`pick` (choice draws). A missing requester yields the empty list. -/
noncomputable def find_matches (db : Database) (h : List Interaction) (req : MatchingRequest)
    (rng : Nat → ℚ) (pick : Nat → Nat → Nat) : Except Unit (List MatchResult) :=
  match findUser db req.user_id with
  | none => .ok []
  | some reqp => do
    let ms ← scoreCandidates reqp req rng pick (candidatesQuery db req)
    return adjustAndRank req.user_id h req ms

/-- The list a caller receives: the value of a normal return, nothing on
a raised exception. -/
def resultList (e : Except Unit (List MatchResult)) : List MatchResult :=
  e.toOption.getD []

/-! ## Definitions taken from the claims under test

The following definitions follow the wording of individual claims (not
the source); each is compared against the source-derived definition
above. -/

/-- Claim C7's matching rule: the objective and the service share a
whitespace-separated token, case-insensitively. -/
def claimTokenShare (objective service : String) : Bool :=
  (splitWs (lowerOf objective)).any (fun w => decide (w ∈ splitWs (lowerOf service)))

/-- Claim C7's complementarity factor: 4 points per requester objective
phrase matching some candidate service phrase, each objective counted at
most once, capped at 20. -/
def claimComplementarityFactor (objectives services : List String) : Nat :=
  min 20 (4 * objectives.countP (fun o => services.any (fun s => claimTokenShare o s)))

/-- Claim C5's cohort: the actors other than the requester who
interacted with at least 2 of the targets the requester previously
interacted with successfully. -/
def claimCohortMembers (u : Nat) (h : List Interaction) : List Nat :=
  ((h.map (fun row => row.user_id)).dedup).filter (fun v =>
    decide (v ≠ u) &&
    decide (2 ≤ (((successTargets u h).dedup).filter (fun t =>
      h.any (fun row => decide (row.user_id = v) && decide (row.target_user_id = t)))).length))

/-- Claim C5's contributing rows for a candidate: the claim-cohort's
interactions with that candidate. -/
def claimRowsForTarget (u : Nat) (h : List Interaction) (t : Nat) : List Interaction :=
  h.filter (fun row =>
    decide (row.user_id ∈ claimCohortMembers u h) && decide (row.target_user_id = t))

/-- Claim C5's boost: `max(0.5, (avg_score/100) * (1+avg_success_rate) *
ln(1+count))` over the contributing cohort rows, and exactly 0.5 for a
candidate with no contributing history. -/
noncomputable def claimCollaborativeScore (u : Nat) (h : List Interaction) (t : Nat) : ℝ :=
  if (claimRowsForTarget u h t).length = 0 then 1/2
  else
    max (1/2)
      (rowBoost (avgOf (fun row => row.compatibility_score) (claimRowsForTarget u h t))
        (claimRowsForTarget u h t).length
        (avgOf (fun row => row.success_indicator) (claimRowsForTarget u h t)))

/-! ## Concrete fixtures -/

/-- A profile with every optional column absent. -/
def baseProfile : Profile :=
  ⟨0, "visitor", "validated", "", 0, .absent, .absent, .absent, .absent, .absent, .absent, "", some ""⟩

/-- A request with the source defaults. -/
def req0 : MatchingRequest := ⟨1, ["all"], ["all"], 70, ["all"], ["all"], "all", 20⟩

/-- An empty profile store. -/
def emptyDb : Database := ⟨[]⟩

/-! ## Helper lemmas -/

/-- Peeling one Except bind. -/
theorem except_bind_ok {α β : Type} {x : Except Unit α} {f : α → Except Unit β} {b : β}
    (h : (x >>= f) = .ok b) : ∃ a, x = .ok a ∧ f a = .ok b := by
  cases x with
  | error e => simp [Bind.bind, Except.bind] at h
  | ok a => exact ⟨a, rfl, by simpa [Bind.bind, Except.bind] using h⟩

/-- Any score the compatibility model returns is at most the clamp 100. -/
theorem compat_model_le_100 {p1 p2 : Profile} {n : Nat}
    (h : simulate_compatibility_model p1 p2 = .ok n) : n ≤ 100 := by
  unfold simulate_compatibility_model at h
  obtain ⟨s1, _, h⟩ := except_bind_ok h
  obtain ⟨s2, _, h⟩ := except_bind_ok h
  obtain ⟨o1, _, h⟩ := except_bind_ok h
  obtain ⟨l1, _, h⟩ := except_bind_ok h
  obtain ⟨o2, _, h⟩ := except_bind_ok h
  obtain ⟨sv2, _, h⟩ := except_bind_ok h
  obtain ⟨t1, _, h⟩ := except_bind_ok h
  obtain ⟨t2, _, h⟩ := except_bind_ok h
  obtain ⟨g1, _, h⟩ := except_bind_ok h
  obtain ⟨g2, _, h⟩ := except_bind_ok h
  obtain ⟨f6, _, h⟩ := except_bind_ok h
  simp only [pure, Except.pure, Except.ok.injEq] at h
  omega

/-- A positive set intersection is exactly a common element. -/
theorem setInterCard_pos_iff (a b : List String) :
    setInterCard a b ≠ 0 ↔ ∃ x, x ∈ a ∧ x ∈ b := by
  unfold setInterCard
  rw [Ne, List.length_eq_zero]
  constructor
  · intro h
    rcases List.exists_mem_of_ne_nil _ h with ⟨x, hx⟩
    rw [List.mem_filter, List.mem_dedup, decide_eq_true_eq] at hx
    exact ⟨x, hx⟩
  · rintro ⟨x, hx1, hx2⟩ hnil
    have : x ∈ ((a.dedup).filter (fun x => decide (x ∈ b))) := by
      rw [List.mem_filter, List.mem_dedup, decide_eq_true_eq]
      exact ⟨hx1, hx2⟩
    rw [hnil] at this
    cases this

/-- The membership-based cross check of the geography factor can only
fire on a common element. -/
theorem geoCross_common {g1 g2 : List String} (h : geoCross g1 g2 = true) :
    ∃ x, x ∈ g1 ∧ x ∈ g2 := by
  unfold geoCross at h
  simp only [List.any_eq_true, Bool.or_eq_true, decide_eq_true_eq] at h
  obtain ⟨a, ha, b, hb, hab⟩ := h
  cases hab with
  | inl h2 => exact ⟨a, ha, h2⟩
  | inr h2 => exact ⟨b, h2, hb⟩

/-- C2: for every pair of profiles on which the compatibility model
returns a score, the score is an integer in [0, 100]: the factor sum is
clamped to 100 and never negative. -/
theorem compat_score_in_range (p1 p2 : Profile) (n : Nat)
    (h : simulate_compatibility_model p1 p2 = .ok n) :
    0 ≤ (n : ℤ) ∧ (n : ℤ) ≤ 100 :=
  ⟨Int.natCast_nonneg n, by exact_mod_cast compat_model_le_100 h⟩

/-- C2 witness: two concrete bare profiles score 0, inside [0, 100]. -/
theorem compat_score_in_range_witness :
    simulate_compatibility_model baseProfile baseProfile = .ok 0 ∧
    (0 ≤ (0 : ℤ) ∧ (0 : ℤ) ≤ 100) :=
  ⟨by decide, compat_score_in_range baseProfile baseProfile 0 (by decide)⟩

/-- C6: on the disjoint location sets ["paris"] and ["paris-france"] the
cross substring match the claim describes exists, yet the geography
factor contributes 0, not 8: the cross check `g1 in geo2` tests list
membership, which is equivalent to a non-empty set intersection, so the
8-point branch is unreachable and the factor is always 15 or 0. -/
theorem geo_substring_branch_dead :
    geoFactor ["paris"] ["paris-france"] = 0 ∧
    (∀ g1 g2 : List String, geoFactor g1 g2 = 15 ∨ geoFactor g1 g2 = 0) := by
  refine ⟨by decide, fun g1 g2 => ?_⟩
  unfold geoFactor
  by_cases hne : g1 ≠ [] ∧ g2 ≠ []
  · rw [if_pos hne]
    by_cases hi : setInterCard g1 g2 ≠ 0
    · rw [if_pos hi]; left; rfl
    · rw [if_neg hi]
      have hcross : geoCross g1 g2 = false := by
        rcases Bool.eq_false_or_eq_true (geoCross g1 g2) with ht | hf
        · exact absurd ((setInterCard_pos_iff g1 g2).2 (geoCross_common ht)) hi
        · exact hf
      rw [hcross]
      right
      rfl
  · rw [if_neg hne]; right; rfl

/-- The inner loop of factor 2 adds one hit per matching service. -/
theorem complementarity_inner (o : String) (services : List String) :
    ∀ acc : Nat,
      services.foldl (fun acc2 s => if tokenHit o s then acc2 + 1 else acc2) acc =
        acc + services.countP (fun s => tokenHit o s) := by
  induction services with
  | nil => intro acc; simp
  | cons s ss ih =>
    intro acc
    rw [List.foldl_cons, List.countP_cons]
    by_cases hs : tokenHit o s
    · rw [if_pos hs, ih, if_pos hs]; omega
    · rw [if_neg hs, ih, if_neg hs]; omega

/-- C7 (amended): the complementarity count is the number of
(objective, service) pairs whose token test hits — each objective
counts once per matching service, not once overall — and the factor
caps four points per pair at 20. -/
theorem complementarity_counts_pairs (objectives services : List String) :
    min 20 (complementarityCount objectives services * 4) =
      min 20 (4 * (objectives.map (fun o => services.countP (fun s => tokenHit o s))).sum) := by
  have key : ∀ start : Nat,
      objectives.foldl
        (fun acc o =>
          services.foldl (fun acc2 s => if tokenHit o s then acc2 + 1 else acc2) acc)
        start =
        start + (objectives.map (fun o => services.countP (fun s => tokenHit o s))).sum := by
    induction objectives with
    | nil => intro start; simp
    | cons o os ih =>
      intro start
      rw [List.foldl_cons, complementarity_inner, ih, List.map_cons, List.sum_cons]
      omega
  unfold complementarityCount
  rw [key 0]
  omega

/-- C7 counterexample: the single objective "port" matches both services
"transport hub" and "port a", so the code contributes min(20, 2*4) = 8
points, while the claim's per-objective counting (sharing a whitespace
token) yields 4; two concrete profiles differing only in these fields
score 8. -/
theorem complementarity_pair_counterexample :
    min 20 (complementarityCount ["port"] ["transport hub", "port a"] * 4) = 8 ∧
    claimComplementarityFactor ["port"] ["transport hub", "port a"] = 4 ∧
    simulate_compatibility_model
      ⟨1, "visitor", "validated", "", 0, .absent, .absent, .tags ["port"], .absent, .absent,
        .absent, "", some ""⟩
      ⟨2, "visitor", "validated", "", 0, .absent, .tags ["transport hub", "port a"], .absent,
        .absent, .absent, .absent, "", some ""⟩ = .ok 8 :=
  ⟨by decide, by decide, by decide⟩

/-- C8 (amended): for non-empty text the extractor's confidence is a
value in [0.75, 0.95] (given a unit random draw); for empty text the
result has empty keyword and topic lists and neutral sentiment, carries
no confidence value at all, and the call does not fail. -/
theorem nlp_confidence_bounds (r : ℚ) (text : String) (h0 : 0 ≤ r) (h1 : r ≤ 1) :
    (text ≠ "" → ∃ c, (simulate_nlp_analysis r text).confidence = some c ∧
      3/4 ≤ c ∧ c ≤ 19/20) ∧
    simulate_nlp_analysis r "" = ⟨[], [], "neutral", none⟩ := by
  constructor
  · intro ht
    unfold simulate_nlp_analysis
    rw [if_neg ht]
    exact ⟨3/4 + (19/20 - 3/4) * r, rfl, by linarith, by linarith⟩
  · rfl

/-- C8 witness: the bounds at the concrete draw 1/2 and text "port". -/
theorem nlp_confidence_bounds_witness :
    (("port" : String) ≠ "" → ∃ c, (simulate_nlp_analysis (1/2) "port").confidence = some c ∧
      3/4 ≤ c ∧ c ≤ 19/20) ∧
    simulate_nlp_analysis (1/2) "" = ⟨[], [], "neutral", none⟩ :=
  nlp_confidence_bounds (1/2) "port" (by norm_num) (by norm_num)

/-- C8 counterexample: for the empty text the returned dict has no
confidence entry at all, so no confidence value in [0.75, 0.95] is
returned, contrary to the claim's "every input text". -/
theorem nlp_empty_text_no_confidence :
    (simulate_nlp_analysis (1/2) "").confidence = none ∧
    ¬ ∃ c, (simulate_nlp_analysis (1/2) "").confidence = some c ∧ 3/4 ≤ c ∧ c ≤ 19/20 := by
  refine ⟨rfl, ?_⟩
  rintro ⟨c, hc, -, -⟩
  rw [show (simulate_nlp_analysis (1/2) "").confidence = none from rfl] at hc
  cases hc

/-- C5 fixture: the requester 1 succeeded once with target 10; actor 2
interacted once with that target 10 and twice with candidate 7. -/
def chist : List Interaction :=
  [⟨1, 10, 80, 1⟩, ⟨2, 10, 80, 1⟩, ⟨2, 7, 80, 1⟩, ⟨2, 7, 90, 1⟩]

/-- C5 counterexample: actor 2 shares only ONE successful target with
the requester, so under the claim's cohort rule (at least 2 shared
targets) candidate 7 has no contributing history and must get exactly
0.5 — but the code admits actor 2 into the cohort after a single shared
target and boosts candidate 7 above 0.5. -/
theorem collab_cohort_counterexample :
    claimCollaborativeScore 1 chist 7 = 1/2 ∧ collaborativeScore 1 chist 7 ≠ 1/2 := by
  constructor
  · have hrows : claimRowsForTarget 1 chist 7 = [] := by decide
    unfold claimCollaborativeScore
    rw [hrows]
    norm_num
  · have hrows : rowsForTarget 1 chist 7 = [⟨2, 7, 80, 1⟩, ⟨2, 7, 90, 1⟩] := by decide
    have ha : avgOf (fun row => row.compatibility_score)
        [(⟨2, 7, 80, 1⟩ : Interaction), ⟨2, 7, 90, 1⟩] = 85 := by
      norm_num [avgOf]
    have hs : avgOf (fun row => row.success_indicator)
        [(⟨2, 7, 80, 1⟩ : Interaction), ⟨2, 7, 90, 1⟩] = 1 := by
      norm_num [avgOf]
    unfold collaborativeScore
    rw [hrows, ha, hs]
    have hb : (1/2 : ℝ) < rowBoost 85 2 1 := by
      unfold rowBoost pyOr
      have h2 : Real.log 2 ≤ Real.log 3 := Real.log_le_log (by norm_num) (by norm_num)
      have h3 : (0.6931471803 : ℝ) < Real.log 2 := Real.log_two_gt_d9
      norm_num
      nlinarith
    have hmax : (1/2 : ℝ) < max (1/2) (rowBoost 85 2 1) :=
      lt_of_lt_of_le hb (le_max_right _ _)
    rw [show ([(⟨2, 7, 80, 1⟩ : Interaction), ⟨2, 7, 90, 1⟩]).length = 2 from rfl,
      if_pos (by norm_num : (2 : ℕ) ≤ 2)]
    exact ne_of_gt hmax

/-- C5 (amended): the cohort comprises the actors other than the
requester with at least ONE interaction aimed at any of the requester's
successful targets; a candidate's boost is the 0.5 default unless the
whole cohort history holds at least 2 rows aimed at that candidate, in
which case it is `max(0.5, rowBoost)` over that row group's aggregates
(with the source's zero-or defaults inside `rowBoost`). -/
theorem collab_score_characterization (u : Nat) (h : List Interaction) (t : Nat) :
    (∀ row : Interaction, row ∈ cohortRows u h ↔ row ∈ h ∧ row.user_id ≠ u ∧
      ∃ r ∈ h, r.user_id = row.user_id ∧ ∃ s ∈ h, s.user_id = u ∧
        1 ≤ s.success_indicator ∧ s.target_user_id = r.target_user_id) ∧
    ((rowsForTarget u h t).length < 2 → collaborativeScore u h t = 1/2) ∧
    (2 ≤ (rowsForTarget u h t).length → collaborativeScore u h t =
      max (1/2)
        (rowBoost (avgOf (fun row => row.compatibility_score) (rowsForTarget u h t))
          (rowsForTarget u h t).length
          (avgOf (fun row => row.success_indicator) (rowsForTarget u h t)))) := by
  refine ⟨fun row => ?_, fun hlt => ?_, fun hge => ?_⟩
  · unfold cohortRows cohortMembers successTargets
    simp only [List.mem_filter, List.mem_dedup, List.mem_map, Bool.and_eq_true,
      decide_eq_true_eq]
    constructor
    · rintro ⟨hrow, ⟨r, ⟨⟨hr, ⟨s, ⟨⟨hs, hsu, hss⟩, hst⟩⟩⟩, hru⟩⟩, hne⟩
      exact ⟨hrow, hne, r, hr, hru, s, hs, hsu, hss, hst⟩
    · rintro ⟨hrow, hne, r, hr, hru, s, hs, hsu, hss, hst⟩
      exact ⟨hrow, ⟨r, ⟨⟨hr, ⟨s, ⟨⟨hs, hsu, hss⟩, hst⟩⟩⟩, hru⟩⟩, hne⟩
  · unfold collaborativeScore
    rw [if_neg (by omega)]
  · unfold collaborativeScore
    rw [if_pos hge]

/-- C5 witness: on an empty history no candidate has contributing rows,
so the boost is exactly the 0.5 default. -/
theorem collab_score_characterization_witness : collaborativeScore 1 [] 7 = 1/2 :=
  (collab_score_characterization 1 [] 7).2.1 (by decide)

/-- C4: when the requester profile cannot be loaded, both
`find_matches` and `generate_proactive_recommendations` return the empty
sequence and raise nothing. -/
theorem missing_requester_yields_empty (db : Database) (hist : List Interaction)
    (req : MatchingRequest) (rng : Nat → ℚ) (pick : Nat → Nat → Nat) (uid : Nat) (now : Int)
    (h1 : findUser db req.user_id = none) (h2 : findUser db uid = none) :
    find_matches db hist req rng pick = .ok [] ∧
    generate_proactive_recommendations db uid now = .ok [] := by
  constructor
  · unfold find_matches
    rw [h1]
  · unfold generate_proactive_recommendations
    rw [h2]
    rfl

/-- C4 witness: the empty store holds neither user 1 nor any requester. -/
theorem missing_requester_yields_empty_witness :
    find_matches emptyDb [] req0 (fun _ => 0) (fun _ _ => 0) = .ok [] ∧
    generate_proactive_recommendations emptyDb 1 0 = .ok [] :=
  missing_requester_yields_empty emptyDb [] req0 (fun _ => 0) (fun _ _ => 0) 1 0 rfl rfl

/-- C9 fixture: a validated user whose interest themes are exactly
["digitalization"], alone in the store (so zero recent signups beside
the requester). -/
def digiUser : Profile :=
  ⟨1, "visitor", "validated", "", 0, .absent, .absent, .absent, .tags ["digitalization"],
   .absent, .absent, "", some ""⟩

/-- The store holding only the C9 requester. -/
def cdb9 : Database := ⟨[digiUser]⟩

/-- Unfolding of `generate_proactive_recommendations` once the requester
row and its decoded interests are fixed. -/
theorem generate_recs_eq (db : Database) (uid : Nat) (now : Int) (p : Profile)
    (ints : List String) (hp : findUser db uid = some p)
    (hi : p.interest_themes.decode = .ok ints) :
    generate_proactive_recommendations db uid now = .ok
      (((current_trends.filter (fun t => ints.any (fun i => t.sectors.contains i))).map
        (fun t => ⟨uid, "trending_topic", "🔥 Tendance détectée: " ++ t.topic,
          t.description ++ " (Croissance: " ++ t.growth_rate ++ ")",
          pyInt (t.strength * 100), trendActions, now + sevenDays⟩)) ++
       (if 0 < recentValidatedCount db uid now then
         [⟨uid, "new_match", "✨ " ++ toString (recentValidatedCount db uid now) ++
            " nouveaux profils compatibles détectés",
           "De nouveaux participants ont rejoint la plateforme avec des profils correspondant à vos intérêts.",
           85, newMatchActions, now + threeDays⟩]
        else [])) := by
  unfold generate_proactive_recommendations
  simp only [hp, hi]
  rfl

/-- C9 counterexample: the requester's interest "digitalization" meets
the sectors of TWO catalog trends (strengths 0.85 and 0.72), so with
zero recent signups the call yields two trending_topic recommendations
(confidences 85 and 72, both expiring 7 days after generation), not
exactly one. -/
theorem digitalization_two_trend_recs :
    ((generate_proactive_recommendations cdb9 1 0).toOption.getD []).map
      (fun rec => (rec.recommendation_type, rec.confidence_score, rec.expires_at)) =
      [("trending_topic", 85, 604800), ("trending_topic", 72, 604800)] := by
  have h85 : pyInt (85/100 * 100) = 85 := by norm_num [pyInt]
  have h72 : pyInt (72/100 * 100) = 72 := by norm_num [pyInt]
  show [("trending_topic", pyInt (85/100 * 100), 0 + sevenDays),
        ("trending_topic", pyInt (72/100 * 100), 0 + sevenDays)] = _
  rw [h85, h72]
  norm_num [sevenDays]

/-- C9 (amended): for a requester whose decoded interest themes are
exactly ["digitalization"] and with zero recent signups, the call yields
exactly one trending_topic recommendation per matching catalog trend —
that is two of them: confidence 85 from the 0.85 trend and confidence 72
from the 0.72 trend, each expiring 7 days after generation. -/
theorem digitalization_trend_recs (db : Database) (uid : Nat) (now : Int) (p : Profile)
    (hp : findUser db uid = some p)
    (hi : p.interest_themes.decode = .ok ["digitalization"])
    (hr : recentValidatedCount db uid now = 0) :
    ∃ l, generate_proactive_recommendations db uid now = .ok l ∧
      l.map (fun rec => (rec.recommendation_type, rec.confidence_score, rec.expires_at)) =
        [("trending_topic", 85, now + sevenDays), ("trending_topic", 72, now + sevenDays)] := by
  have h85 : pyInt (85/100 * 100) = 85 := by norm_num [pyInt]
  have h72 : pyInt (72/100 * 100) = 72 := by norm_num [pyInt]
  refine ⟨_, generate_recs_eq db uid now p ["digitalization"] hp hi, ?_⟩
  rw [hr]
  show [("trending_topic", pyInt (85/100 * 100), now + sevenDays),
        ("trending_topic", pyInt (72/100 * 100), now + sevenDays)] =
      [("trending_topic", 85, now + sevenDays), ("trending_topic", 72, now + sevenDays)]
  rw [h85, h72]

/-- C9 witness: the amended statement at the concrete store of the
single digitalization-interested user, at time 5. -/
theorem digitalization_trend_recs_witness :
    ∃ l, generate_proactive_recommendations cdb9 1 5 = .ok l ∧
      l.map (fun rec => (rec.recommendation_type, rec.confidence_score, rec.expires_at)) =
        [("trending_topic", 85, 5 + sevenDays), ("trending_topic", 72, 5 + sevenDays)] :=
  digitalization_trend_recs cdb9 1 5 digiUser rfl rfl rfl

/-- Binding a normal return just continues. -/
theorem except_ok_bind {α β : Type} (a : α) (f : α → Except Unit β) :
    ((.ok a : Except Unit α) >>= f) = f a := rfl

/-- Binding a raised exception propagates it. -/
theorem except_error_bind {α β : Type} (f : α → Except Unit β) :
    ((.error () : Except Unit α) >>= f) = .error () := rfl

/-- A candidate whose `sectors_activity` column is malformed makes the
compatibility model raise, whatever the requester row holds. -/
theorem model_error_of_malformed_sectors (p c : Profile)
    (hc : c.sectors_activity = .malformed) :
    simulate_compatibility_model p c = .error () := by
  unfold simulate_compatibility_model
  cases hd : p.sectors_activity.decode with
  | error e => cases e; rfl
  | ok s1 => rw [hc]; rfl

/-- If any candidate of the scanned list carries a malformed
`sectors_activity` column, the scoring loop raises. -/
theorem scoreLoop_error (reqp : Profile) (req : MatchingRequest) (rng : Nat → ℚ)
    (pick : Nat → Nat → Nat) :
    ∀ (cs : List Profile) (idx : Nat) (acc : List MatchResult),
      (∃ c ∈ cs, c.sectors_activity = .malformed) →
      scoreLoop reqp req rng pick idx acc cs = .error () := by
  intro cs
  induction cs with
  | nil =>
    rintro idx acc ⟨c, hc, -⟩
    cases hc
  | cons y ys ih =>
    rintro idx acc ⟨c, hc, hm⟩
    show (simulate_compatibility_model reqp y >>= _) = .error ()
    rcases List.mem_cons.mp hc with rfl | hmem
    · rw [model_error_of_malformed_sectors reqp c hm]
      rfl
    · cases hy : simulate_compatibility_model reqp y with
      | error e => cases e; rfl
      | ok score =>
        rw [except_ok_bind]
        by_cases hsc : req.min_compatibility ≤ score
        · rw [if_pos hsc]
          cases hb : buildMatch rng pick idx reqp y score with
          | error e => cases e; rfl
          | ok m =>
            rw [except_ok_bind]
            exact ih (idx + 1) (acc ++ [m]) ⟨c, hmem, hm⟩
        · rw [if_neg hsc]
          exact ih (idx + 1) acc ⟨c, hmem, hm⟩

/-- C3 (amended): an absent or empty tag column does degrade to the
empty default, but malformed stored tag data is not isolated per
candidate: as soon as any scanned candidate's `sectors_activity` column
is malformed, the JSON parse error propagates and the whole
`find_matches` call aborts instead of returning the remaining
candidates. -/
theorem malformed_candidate_aborts (db : Database) (hist : List Interaction)
    (req : MatchingRequest) (rng : Nat → ℚ) (pick : Nat → Nat → Nat) (p : Profile)
    (hp : findUser db req.user_id = some p)
    (hbad : ∃ c ∈ candidatesQuery db req, c.sectors_activity = .malformed) :
    TagData.decode .absent = .ok [] ∧
    find_matches db hist req rng pick = .error () := by
  refine ⟨rfl, ?_⟩
  unfold find_matches
  simp only [hp]
  show (scoreCandidates p req rng pick (candidatesQuery db req) >>= _) = .error ()
  unfold scoreCandidates
  rw [scoreLoop_error p req rng pick (candidatesQuery db req) 0 [] hbad]
  rfl

/-- C3 fixtures: requester 1, a clean candidate 2 scoring 0, and
candidate 3 with a malformed `sectors_activity` column. -/
def requester3 : Profile :=
  ⟨1, "visitor", "validated", "", 0, .absent, .absent, .absent, .absent, .absent, .absent, "", some ""⟩

/-- The clean C3 candidate. -/
def goodCand3 : Profile :=
  ⟨2, "visitor", "validated", "", 0, .absent, .absent, .absent, .absent, .absent, .absent, "", some ""⟩

/-- The C3 candidate with a malformed stored tag column. -/
def badCand3 : Profile :=
  ⟨3, "visitor", "validated", "", 0, .malformed, .absent, .absent, .absent, .absent, .absent, "", some ""⟩

/-- The C3 request: threshold 1 and every type admitted, so the clean
zero-scoring candidate is dropped by the threshold (before its
explanation stage) and the loop reaches the malformed candidate. -/
def req3 : MatchingRequest := ⟨1, ["all"], ["all"], 1, ["all"], ["all"], "all", 20⟩

/-- The C3 store. -/
def cdb3 : Database := ⟨[requester3, goodCand3, badCand3]⟩

/-- C3 counterexample: the clean candidate 2 scores below the threshold
and is skipped, then the loop reaches candidate 3, whose malformed
stored tags make `json.loads` raise — the whole call aborts instead of
completing over the remaining candidates as the claim promises. -/
theorem malformed_candidate_aborts_call :
    find_matches cdb3 [] req3 (fun _ => 1/2) (fun _ n => n) = .error () := rfl

/-- C3 witness: the amended statement at the concrete three-row store. -/
theorem malformed_candidate_aborts_witness :
    TagData.decode .absent = .ok [] ∧
    find_matches cdb3 [] req3 (fun _ => 0) (fun _ _ => 0) = .error () :=
  malformed_candidate_aborts cdb3 [] req3 (fun _ => 0) (fun _ _ => 0) requester3 rfl
    ⟨badCand3, by decide, rfl⟩

/-- Building a match always raises: the very first step is the `.get`
attribute lookup on a `sqlite3.Row`. -/
theorem buildMatch_error (rng : Nat → ℚ) (pick : Nat → Nat → Nat) (idx : Nat)
    (reqp cand : Profile) (score : Nat) :
    buildMatch rng pick idx reqp cand score = .error () := rfl

/-- Every match the scoring loop returns either was in the accumulator
or stems from a scanned candidate: its id is the candidate's, its score
is the base score of the compatibility model, and that base meets the
request threshold. -/
theorem scoreLoop_mem (reqp : Profile) (req : MatchingRequest) (rng : Nat → ℚ)
    (pick : Nat → Nat → Nat) :
    ∀ (cs : List Profile) (idx : Nat) (acc ms : List MatchResult),
      scoreLoop reqp req rng pick idx acc cs = .ok ms →
      ∀ m ∈ ms, m ∈ acc ∨ ∃ c ∈ cs, ∃ base : Nat,
        simulate_compatibility_model reqp c = .ok base ∧
        req.min_compatibility ≤ base ∧ m.matched_user_id = c.id ∧
        m.compatibility_score = (base : ℤ) := by
  intro cs
  induction cs with
  | nil =>
    intro idx acc ms h m hm
    left
    unfold scoreLoop at h
    rw [Except.ok.inj h]
    exact hm
  | cons y ys ih =>
    intro idx acc ms h m hm
    unfold scoreLoop at h
    obtain ⟨score, hsc, h⟩ := except_bind_ok h
    by_cases hmin : req.min_compatibility ≤ score
    · rw [if_pos hmin] at h
      obtain ⟨mm, hbm, h⟩ := except_bind_ok h
      rw [buildMatch_error] at hbm
      cases hbm
    · rw [if_neg hmin] at h
      rcases ih (idx + 1) acc ms h m hm with hacc | ⟨c, hc, rest⟩
      · exact Or.inl hacc
      · exact Or.inr ⟨c, List.mem_cons_of_mem _ hc, rest⟩

/-- The collaborative boost never drops below the 0.5 default. -/
theorem collaborativeScore_ge_half (u : Nat) (h : List Interaction) (t : Nat) :
    (1/2 : ℝ) ≤ collaborativeScore u h t := by
  unfold collaborativeScore
  split
  · exact le_max_left _ _
  · exact le_refl _

/-- The adjustment `min(100, int(base * (1 + boost * 0.1)))` never drops
below an in-range base score when the boost is at least 0.5. -/
theorem adjusted_score_ge (base : Nat) (hbase : base ≤ 100) (b : ℝ) (hb : 1/2 ≤ b) :
    (base : ℤ) ≤ min 100 ⌊((base : ℤ) : ℝ) * (1 + b * (1/10))⌋ := by
  refine le_min (by exact_mod_cast hbase) ?_
  rw [Int.le_floor]
  have h0 : (0 : ℝ) ≤ (base : ℝ) := by positivity
  push_cast
  nlinarith

/-- The scoring loop can only ever return its accumulator: a candidate
accepted by the threshold sends the loop into `buildMatch`, which raises
on the Row attribute access before any result is appended. -/
theorem scoreLoop_ok_eq_acc (reqp : Profile) (req : MatchingRequest) (rng : Nat → ℚ)
    (pick : Nat → Nat → Nat) :
    ∀ (cs : List Profile) (idx : Nat) (acc ms : List MatchResult),
      scoreLoop reqp req rng pick idx acc cs = .ok ms → ms = acc := by
  intro cs
  induction cs with
  | nil =>
    intro idx acc ms h
    unfold scoreLoop at h
    exact (Except.ok.inj h).symm
  | cons y ys ih =>
    intro idx acc ms h
    unfold scoreLoop at h
    obtain ⟨score, -, h⟩ := except_bind_ok h
    by_cases hmin : req.min_compatibility ≤ score
    · rw [if_pos hmin, buildMatch_error, except_error_bind] at h
      cases h
    · rw [if_neg hmin] at h
      exact ih (idx + 1) acc ms h

/-- C1 fixture: a request from user 1 whose zero threshold accepts the
single validated candidate, driving the call into the explanation
stage. -/
def req1 : MatchingRequest := ⟨1, ["all"], ["all"], 0, ["all"], ["all"], "all", 20⟩

/-- The C1 store: requester 1 and one validated candidate 2. -/
def cdb1 : Database := ⟨[requester3, goodCand3]⟩

/-- C1: the ranked, truncated, threshold-filtered result list the claim
describes is unreachable. `user_profile.get('description', '')` is an
attribute lookup on a `sqlite3.Row`, which has no `.get`, so the call
raises for every candidate accepted by `min_compatibility` — concretely
on a store whose single validated candidate passes the zero threshold —
and every run that does return returns the empty list. -/
theorem find_matches_crashes_on_accepted_candidate :
    find_matches cdb1 [] req1 (fun _ => 0) (fun _ _ => 0) = .error () ∧
    ∀ (db : Database) (hist : List Interaction) (req : MatchingRequest)
      (rng : Nat → ℚ) (pick : Nat → Nat → Nat),
      resultList (find_matches db hist req rng pick) = [] := by
  refine ⟨rfl, fun db hist req rng pick => ?_⟩
  cases hu : findUser db req.user_id with
  | none =>
    have hfm : find_matches db hist req rng pick = .ok [] := by
      unfold find_matches
      rw [hu]
    rw [hfm]
    rfl
  | some p =>
    cases hs : scoreCandidates p req rng pick (candidatesQuery db req) with
    | error e =>
      cases e
      have hfm : find_matches db hist req rng pick = .error () := by
        unfold find_matches
        simp only [hu]
        rw [hs, except_error_bind]
      rw [hfm]
      rfl
    | ok ms =>
      have hms : ms = [] := by
        unfold scoreCandidates at hs
        exact scoreLoop_ok_eq_acc p req rng pick (candidatesQuery db req) 0 [] ms hs
      have hfm : find_matches db hist req rng pick =
          .ok (adjustAndRank req.user_id hist req ms) := by
        unfold find_matches
        simp only [hu]
        rw [hs, except_ok_bind]
        rfl
      have hnil : adjustAndRank req.user_id hist req [] = [] := by
        unfold adjustAndRank
        simp
      rw [hfm, hms, hnil]
      rfl

/-- C10: the candidate query scans at most `2 * limit` rows — the
validated users other than the requester passing the type filter with
the smallest ids — every returned match comes from that prefix, and any
eligible user left out of the prefix has an id at least as large as
every id inside it, whatever its compatibility would have been. -/
theorem candidates_prefix_bound (db : Database) (hist : List Interaction)
    (req : MatchingRequest) (rng : Nat → ℚ) (pick : Nat → Nat → Nat) :
    (candidatesQuery db req).length ≤ 2 * req.limit ∧
    (∀ m ∈ resultList (find_matches db hist req rng pick),
      m.matched_user_id ∈ (candidatesQuery db req).map (fun c => c.id)) ∧
    (∀ u ∈ db.users, u.id ≠ req.user_id → u.status = "validated" →
      typeMatches req u = true → u ∉ candidatesQuery db req →
      ∀ c ∈ candidatesQuery db req, c.id ≤ u.id) := by
  refine ⟨le_trans (List.length_take_le _ _) (by omega), fun m hm => ?_, ?_⟩
  · cases hu : findUser db req.user_id with
    | none =>
      have hfm : find_matches db hist req rng pick = .ok [] := by
        unfold find_matches
        rw [hu]
      rw [hfm] at hm
      exact absurd hm (List.not_mem_nil m)
    | some p =>
      cases hs : scoreCandidates p req rng pick (candidatesQuery db req) with
      | error e =>
        cases e
        have hfm : find_matches db hist req rng pick = .error () := by
          unfold find_matches
          simp only [hu]
          rw [hs, except_error_bind]
        rw [hfm] at hm
        exact absurd hm (List.not_mem_nil m)
      | ok ms =>
        have hfm : find_matches db hist req rng pick =
            .ok (adjustAndRank req.user_id hist req ms) := by
          unfold find_matches
          simp only [hu]
          rw [hs, except_ok_bind]
          rfl
        rw [hfm] at hm
        have hm1 : m ∈ adjustAndRank req.user_id hist req ms := hm
        unfold adjustAndRank at hm1
        have hm2 := (List.mem_insertionSort _).mp ((List.take_sublist _ _).subset hm1)
        obtain ⟨m0, hm0, hadj⟩ := List.mem_map.mp hm2
        unfold scoreCandidates at hs
        rcases scoreLoop_mem p req rng pick (candidatesQuery db req) 0 [] ms hs m0 hm0 with
          habs | ⟨c, hc, base, -, -, hid, -⟩
        · cases habs
        · refine List.mem_map.mpr ⟨c, hc, ?_⟩
          rw [← hadj]
          exact hid.symm
  · intro u hu hne hst hty hnotin c hc
    haveI hto : IsTotal Profile (fun a b => a.id ≤ b.id) := ⟨fun a b => le_total _ _⟩
    haveI htr : IsTrans Profile (fun a b => a.id ≤ b.id) :=
      ⟨fun a b c hab hbc => le_trans hab hbc⟩
    have hmemf : u ∈ db.users.filter (fun p =>
        decide (p.id ≠ req.user_id) && decide (p.status = "validated") && typeMatches req p) := by
      rw [List.mem_filter]
      exact ⟨hu, by simp [hne, hst, hty]⟩
    have hmems : u ∈ List.insertionSort (fun a b : Profile => a.id ≤ b.id)
        (db.users.filter (fun p =>
          decide (p.id ≠ req.user_id) && decide (p.status = "validated") && typeMatches req p)) :=
      (List.mem_insertionSort _).mpr hmemf
    set sorted := List.insertionSort (fun a b : Profile => a.id ≤ b.id)
      (db.users.filter (fun p =>
        decide (p.id ≠ req.user_id) && decide (p.status = "validated") && typeMatches req p))
      with hsorted
    have hpw : List.Pairwise (fun a b : Profile => a.id ≤ b.id) sorted :=
      List.sorted_insertionSort _ _
    have hsplit : sorted = sorted.take (req.limit * 2) ++ sorted.drop (req.limit * 2) :=
      (List.take_append_drop _ _).symm
    have hdrop : u ∈ sorted.drop (req.limit * 2) := by
      rcases List.mem_append.mp (hsplit ▸ hmems) with hin | hin
      · exact absurd hin hnotin
      · exact hin
    have hpw2 := List.pairwise_append.mp (hsplit ▸ hpw)
    exact hpw2.2.2 c hc u hdrop

/-- C10 witness: the statement at a concrete store and request. -/
theorem candidates_prefix_bound_witness :
    (candidatesQuery cdb9 req0).length ≤ 2 * req0.limit :=
  (candidates_prefix_bound cdb9 [] req0 (fun _ => 0) (fun _ _ => 0)).1
